import Mathlib

/-!
Shallow embedding of the Toggle widget (src/widget/toggle.rs) of this
repository: the `TimesClicked` event stream, the descriptor and its builder,
the style-resolution, the colour computation of `Toggle::update`, and the
`IndexSlot` / graph-context allocator interface the update routine consumes.
Rust's `&mut self` iterator becomes explicit state passing, the `u16` count
becomes a `Nat` reduced `% 65536` where the source casts, and `f32`/`f64`
colour and scalar channels become `Rat`.
-/

/-- Pointer-state visual variant of a colour. Modelled from the spec: the
pointer modulation maps a colour to its "clicked" or "highlighted" visual
variant; the variants are distinct from each other and from the unmodified
colour's plain form. -/
inductive ColorVariant
  | plain
  | clickedVariant
  | highlightedVariant
  deriving DecidableEq

/-- Modelled from the spec: the toolkit's `Color` type (not under src/),
reduced to the data the Toggle code observes: a luminance channel (the
source calls `with_luminance(0.1)`) and the pointer-state variant produced
by `clicked()` / `highlighted()`. -/
structure Color where
  luminance : Rat
  variant : ColorVariant
  deriving DecidableEq

/-- Modelled from the spec: `with_luminance(l)` returns the colour with its
luminance channel set to `l` (the source passes the constant `0.1`, here
`1/10`). -/
def Color.with_luminance (c : Color) (l : Rat) : Color :=
  { c with luminance := l }

/-- Modelled from the spec: the "clicked" visual variant of a colour. -/
def Color.clicked (c : Color) : Color :=
  { c with variant := ColorVariant.clickedVariant }

/-- Modelled from the spec: the "highlighted" visual variant of a colour. -/
def Color.highlighted (c : Color) : Color :=
  { c with variant := ColorVariant.highlightedVariant }

/-- The `TimesClicked` event yielded by the Toggle (toggle.rs lines 60-65):
`state: bool, count: u16`. The `u16` is embedded as a `Nat`; every value the
update routine constructs has `count < 65536`. -/
structure TimesClicked where
  state : Bool
  count : Nat
  deriving DecidableEq

/-- `Iterator::next` for `TimesClicked` (toggle.rs lines 68-79): while
`count > 0`, decrement `count`, flip `state` and yield the new `state`;
otherwise yield nothing. The mutation of `self` is explicit: the call
returns the yielded item together with the successor stream state. -/
def TimesClicked.next (t : TimesClicked) : Option Bool × TimesClicked :=
  if t.count > 0 then
    (some (!t.state), { state := !t.state, count := t.count - 1 })
  else
    (none, t)

/-- The stream state after `n` calls to `next`. -/
def TimesClicked.afterCalls (t : TimesClicked) : Nat → TimesClicked
  | 0 => t
  | n + 1 => (TimesClicked.afterCalls t n).next.2

/-- The item yielded by the `(i+1)`-th call to `next` (`i` is 0-indexed). -/
def TimesClicked.call (t : TimesClicked) (i : Nat) : Option Bool :=
  (t.afterCalls i).next.1

/-- Fuelled collection of every item the stream yields, in order. -/
def TimesClicked.collect : Nat → TimesClicked → List Bool
  | 0, _ => []
  | fuel + 1, t =>
    match TimesClicked.next t with
    | (some b, t2) => b :: TimesClicked.collect fuel t2
    | (none, _) => []

/-- All items the stream yields, in order (`count` is sufficient fuel since
each yielding call to `next` decrements `count`). `Iterator::last()` of the
Rust source is `toList.getLast?` here. -/
def TimesClicked.toList (t : TimesClicked) : List Bool :=
  TimesClicked.collect t.count t

/-- The `TimesClicked` value built by `Toggle::update` (toggle.rs lines
130-133): `state = value`, and `count` is the number of recorded left-click
events cast `as u16` when `enabled`, else `0`. Rust's `as u16` cast
truncates, i.e. reduces modulo `2^16 = 65536`. -/
def timesClickedOf (enabled value : Bool) (nclicks : Nat) : TimesClicked :=
  { state := value, count := if enabled then nclicks % 65536 else 0 }

/-- The theme consulted for style defaults (fields named after the theme
keys the `widget_style!` invocation in toggle.rs lines 33-47 reads). -/
structure Theme where
  shape_color : Color
  border_width : Rat
  border_color : Color
  label_color : Color
  font_size_medium : Nat
  deriving DecidableEq

/-- The Toggle's `Style` (toggle.rs lines 33-47): five sparse overrides,
each `Option`, absence meaning "inherit from theme". -/
structure Style where
  color : Option Color
  border : Option Rat
  border_color : Option Color
  label_color : Option Color
  label_font_size : Option Nat
  deriving DecidableEq

/-- `Style::new()`: every override unset. -/
def Style.new : Style :=
  { color := none, border := none, border_color := none,
    label_color := none, label_font_size := none }

/-- Modelled from the spec together with the `widget_style!` invocation
(toggle.rs line 37): the resolved area colour is the override when set,
else the theme's `shape_color`. -/
def Style.colorOf (s : Style) (theme : Theme) : Color :=
  s.color.getD theme.shape_color

/-- Modelled from the spec (toggle.rs line 39): resolved border width. -/
def Style.borderOf (s : Style) (theme : Theme) : Rat :=
  s.border.getD theme.border_width

/-- Modelled from the spec (toggle.rs line 41): resolved border colour. -/
def Style.border_colorOf (s : Style) (theme : Theme) : Color :=
  s.border_color.getD theme.border_color

/-- Modelled from the spec (toggle.rs line 43): resolved label colour. -/
def Style.label_colorOf (s : Style) (theme : Theme) : Color :=
  s.label_color.getD theme.label_color

/-- Modelled from the spec (toggle.rs line 45): resolved label font size. -/
def Style.label_font_sizeOf (s : Style) (theme : Theme) : Nat :=
  s.label_font_size.getD theme.font_size_medium

/-- The Toggle descriptor (toggle.rs lines 24-31). The `common:
CommonBuilder` field is external layout bookkeeping not observed by any
behaviour modelled here and is omitted. -/
structure Toggle where
  value : Bool
  maybe_label : Option String
  style : Style
  enabled : Bool
  deriving DecidableEq

/-- `Toggle::new(value)` (toggle.rs lines 85-93). -/
def Toggle.new (value : Bool) : Toggle :=
  { value := value, maybe_label := none, style := Style.new, enabled := true }

/-- Modelled from the spec: the per-frame graph context reduced to its
identity allocator (`allocate_identity() -> Identity`); identities are
naturals handed out in sequence. -/
structure Ctx where
  next_id : Nat
  deriving DecidableEq

/-- Modelled from the spec: allocate a fresh widget identity; allocation
never fails. -/
def Ctx.allocate_identity (c : Ctx) : Nat × Ctx :=
  (c.next_id, { next_id := c.next_id + 1 })

/-- Modelled from the spec: an Index Slot, a lazily-populated write-once
cache for a sub-widget identity (`widget::IndexSlot`, not under src/). -/
structure IndexSlot where
  maybe_idx : Option Nat
  deriving DecidableEq

/-- Modelled from the spec: a fresh, empty Index Slot. -/
def IndexSlot.new : IndexSlot :=
  { maybe_idx := none }

/-- Modelled from the spec: `get(context) -> Identity`. The first call
allocates a fresh identity from the context and stores it; every later call
returns the stored identity unchanged with no further allocation. The
interior mutation is explicit: the call returns the identity, the updated
slot and the updated context. -/
def IndexSlot.get (s : IndexSlot) (c : Ctx) : Nat × IndexSlot × Ctx :=
  match s.maybe_idx with
  | some i => (i, s, c)
  | none =>
    let r := c.allocate_identity
    (r.1, { maybe_idx := some r.1 }, r.2)

/-- Three successive resolutions of a fresh Index Slot, threading the slot
and the context through each call. -/
def threeGets (c : Ctx) :
    (Nat × IndexSlot × Ctx) × (Nat × IndexSlot × Ctx) × (Nat × IndexSlot × Ctx) :=
  let r1 := IndexSlot.new.get c
  let r2 := r1.2.1.get r1.2.2
  let r3 := r2.2.1.get r2.2.2
  (r1, r2, r3)

/-- The Toggle's persistent `State` (toggle.rs lines 51-54). -/
structure State where
  rectangle_idx : IndexSlot
  label_idx : IndexSlot
  deriving DecidableEq

/-- Pointer state over the widget's area, reduced to what toggle.rs line 145
reads: whether the left button is down (`mouse.buttons.left().is_down()`).
Modelled from the spec: `pointer_state_over` yields `none` when no pointer
is over the widget. -/
structure Mouse where
  left_is_down : Bool
  deriving DecidableEq

/-- The darkened-or-not base colour (toggle.rs lines 140-142): the
prospective final value is the last item a disposable copy of the stream
would yield, falling back to `value` when the stream is empty; when it is
`false` the style colour's luminance is set to `1/10` (the source's `0.1`),
else the style colour is kept. -/
def toggleBaseColor (styleColor : Color) (value : Bool) (times_clicked : TimesClicked) : Color :=
  let new_value := times_clicked.toList.getLast?.getD value
  if new_value then styleColor else styleColor.with_luminance (1 / 10)

/-- The pointer modulation (toggle.rs lines 143-148): left button down gives
the clicked variant, a pointer over the widget without the left button down
gives the highlighted variant, no pointer leaves the colour unmodified. -/
def mouseModulate (c : Color) (mouse : Option Mouse) : Color :=
  match mouse with
  | some m => if m.left_is_down then c.clicked else c.highlighted
  | none => c

/-- The full area-colour computation of `Toggle::update` (toggle.rs lines
139-149). -/
def resolveAreaColor (styleColor : Color) (value : Bool) (times_clicked : TimesClicked)
    (mouse : Option Mouse) : Color :=
  mouseModulate (toggleBaseColor styleColor value times_clicked) mouse

/-- What one `Toggle::update` call produces for its caller and for the
sub-widgets it places: the event stream it returns, the rectangle
sub-widget's identity and visual parameters, and the label placement when a
label is present. -/
structure UpdateResult where
  event : TimesClicked
  rectangle_idx : Nat
  area_color : Color
  border : Rat
  border_color : Color
  label : Option (Nat × String × Color × Nat)
  deriving DecidableEq

/-- `Toggle::update` (toggle.rs lines 126-173). Inputs captured by the
graph context are explicit: `nclicks` is the number of left-click events
recorded for this widget's identity since the prior frame, `mouse` the
pointer state over its area. The routine builds the event stream, resolves
the rectangle identity through the persistent state's slot, computes the
area colour from a disposable copy of the stream, places the label (when
present) through the second slot, and returns the unconsumed stream
together with the stored-back persistent state and context. -/
def Toggle.update (t : Toggle) (st : State) (ctx : Ctx) (nclicks : Nat)
    (mouse : Option Mouse) (theme : Theme) : UpdateResult × State × Ctx :=
  let times_clicked := timesClickedOf t.enabled t.value nclicks
  let rg := st.rectangle_idx.get ctx
  let area_color := resolveAreaColor (t.style.colorOf theme) t.value times_clicked mouse
  match t.maybe_label with
  | some label =>
    let lg := st.label_idx.get rg.2.2
    ({ event := times_clicked, rectangle_idx := rg.1, area_color := area_color,
       border := t.style.borderOf theme, border_color := t.style.border_colorOf theme,
       label := some (lg.1, label, t.style.label_colorOf theme, t.style.label_font_sizeOf theme) },
     { rectangle_idx := rg.2.1, label_idx := lg.2.1 }, lg.2.2)
  | none =>
    ({ event := times_clicked, rectangle_idx := rg.1, area_color := area_color,
       border := t.style.borderOf theme, border_color := t.style.border_colorOf theme,
       label := none },
     { rectangle_idx := rg.2.1, label_idx := st.label_idx }, rg.2.2)

/-- A concrete theme used by closed counterexamples and witnesses. -/
def exampleTheme : Theme :=
  { shape_color := { luminance := 1 / 2, variant := ColorVariant.plain }
    border_width := 1
    border_color := { luminance := 1 / 2, variant := ColorVariant.plain }
    label_color := { luminance := 1 / 2, variant := ColorVariant.plain }
    font_size_medium := 14 }

/-- The state's flip parity: `s` flipped `n` times. -/
def flipN (s : Bool) (n : Nat) : Bool :=
  if n % 2 = 0 then s else !s

theorem flipN_succ (s : Bool) (n : Nat) : flipN s (n + 1) = !(flipN s n) := by
  rcases Nat.mod_two_eq_zero_or_one n with h | h
  · have h2 : (n + 1) % 2 = 1 := by omega
    simp [flipN, h, h2]
  · have h2 : (n + 1) % 2 = 0 := by omega
    simp [flipN, h, h2]

theorem afterCalls_eq (s : Bool) (k n : Nat) :
    TimesClicked.afterCalls ⟨s, k⟩ n = ⟨flipN s (min n k), k - n⟩ := by
  induction n with
  | zero => simp [TimesClicked.afterCalls, flipN]
  | succ n ih =>
    rw [TimesClicked.afterCalls, ih]
    by_cases h : n < k
    · have hk : 0 < k - n := by omega
      have hmin : min n k = n := by omega
      have hmin2 : min (n + 1) k = n + 1 := by omega
      rw [hmin, hmin2, flipN_succ]
      simp [TimesClicked.next, hk]
      omega
    · have hk : k - n = 0 := by omega
      have hmin : min n k = k := by omega
      have hmin2 : min (n + 1) k = k := by omega
      simp [TimesClicked.next, hk, hmin, hmin2]
      omega

/-- C1: a `TimesClicked` stream built with `state = s` and `count = k` (any
`k` representable as `u16`) yields, under repeated calls to `next`, exactly
`k` boolean items alternating starting with `!s`; the `(k+1)`-th call and
every later call return `none` (exhaustion is terminal and idempotent,
including `k = 0`). -/
theorem timesClicked_yields_alternating (s : Bool) (k : Nat) (_hk : k < 65536) :
    ∀ i : Nat, TimesClicked.call ⟨s, k⟩ i =
      if i < k then some (if i % 2 = 0 then !s else s) else none := by
  intro i
  rw [TimesClicked.call, afterCalls_eq]
  by_cases h : i < k
  · have hc : 0 < k - i := by omega
    have hmin : min i k = i := by omega
    rw [hmin]
    simp [TimesClicked.next, hc, h]
    rcases Nat.mod_two_eq_zero_or_one i with h2 | h2 <;> simp [flipN, h2]
  · have hc : k - i = 0 := by omega
    simp [TimesClicked.next, hc, h]

/-- Witness for C1 at `s = false`, `k = 2`: the calls yield `true`, `false`,
then `none` for the third and every later call. -/
theorem timesClicked_yields_alternating_witness :
    TimesClicked.call ⟨false, 2⟩ 0 = some true ∧
    TimesClicked.call ⟨false, 2⟩ 1 = some false ∧
    TimesClicked.call ⟨false, 2⟩ 2 = none ∧
    TimesClicked.call ⟨false, 2⟩ 9 = none := by
  have h := timesClicked_yields_alternating false 2 (by decide)
  exact ⟨(h 0).trans (by decide), (h 1).trans (by decide),
    (h 2).trans (by decide), (h 9).trans (by decide)⟩

/-- C2 counterexample: with 65536 recorded clicks while enabled, the `as
u16` cast wraps the count to `0`, not to the saturated maximum
`min 65536 65535 = 65535`, refuting the claim that the count saturates and
never wraps. -/
theorem timesClicked_count_not_saturating :
    ¬ ((timesClickedOf true false 65536).count = min 65536 65535) := by
  decide

/-- C2 (amended): the `count` field equals the number of qualifying clicks
reduced modulo `2^16` (Rust `as u16` truncation): it is always below
`65536` and congruent to the click count modulo `65536`, agreeing with the
click count whenever it fits in `u16` but wrapping (not saturating) beyond
that. -/
theorem timesClicked_count_truncates (v : Bool) (n : Nat) :
    (timesClickedOf true v n).count < 65536 ∧
    (timesClickedOf true v n).count % 65536 = n % 65536 := by
  constructor
  · show n % 65536 < 65536
    omega
  · show n % 65536 % 65536 = n % 65536
    omega

/-- C3: with `enabled = false` the update routine's event stream has
`count = 0` and yields no values at all, regardless of the number of
recorded left-click events. -/
theorem disabled_toggle_count_zero (v : Bool) (n : Nat) :
    (timesClickedOf false v n).count = 0 ∧
    (timesClickedOf false v n).toList = [] ∧
    (∀ i : Nat, (timesClickedOf false v n).call i = none) := by
  refine ⟨rfl, rfl, fun i => ?_⟩
  show TimesClicked.call ⟨v, 0⟩ i = none
  rw [TimesClicked.call, afterCalls_eq]
  simp [TimesClicked.next]

/-- C4: with `enabled = true`, exactly 3 recorded left-clicks and
`value = true`, the event stream returned by `Toggle::update` yields
exactly the sequence `[false, true, false]`, whatever the label, style
overrides, persistent state, context, pointer state and theme. -/
theorem three_clicks_event_list (lbl : Option String) (sty : Style) (st : State) (ctx : Ctx)
    (mouse : Option Mouse) (theme : Theme) :
    ((Toggle.update ⟨true, lbl, sty, true⟩ st ctx 3 mouse theme).1.event).toList =
      [false, true, false] := by
  cases lbl <;> rfl

/-- C5 counterexample: take a style override colour of luminance `1/20`
(below the darkening constant `1/10`), `value = false`, no clicks and no
pointer. The prospective final value is `false`, yet the computed rectangle
colour (luminance set to `1/10`) does not have lower luminance than the
undarkened resolved style colour (luminance `1/20`) — it is brighter. -/
theorem darken_not_lower_luminance :
    ¬ ((Toggle.update
          ⟨false, none,
            { Style.new with color := some { luminance := 1 / 20, variant := ColorVariant.plain } },
            true⟩
          ⟨IndexSlot.new, IndexSlot.new⟩ ⟨0⟩ 0 none exampleTheme).1.area_color.luminance <
        ({ luminance := 1 / 20, variant := ColorVariant.plain } : Color).luminance) := by
  intro hlt
  have h : (1 : Rat) / 10 < 1 / 20 := hlt
  norm_num at h

/-- C5 (amended): absent pointer interaction, when the prospective final
value (the last element the event stream would yield, or the original value
for an empty stream) is `false`, the rectangle colour is the undarkened
resolved style colour with its luminance set to the constant `1/10` — so it
differs from the undarkened colour exactly when that colour's luminance is
not already `1/10`, but for style colours of luminance at most `1/10` it is
not lower in luminance; when the prospective final value is `true`, the
rectangle colour equals the undarkened resolved style colour exactly. -/
theorem area_color_darkening (t : Toggle) (st : State) (ctx : Ctx) (n : Nat) (theme : Theme) :
    ((timesClickedOf t.enabled t.value n).toList.getLast?.getD t.value = false →
      (Toggle.update t st ctx n none theme).1.area_color =
        (t.style.colorOf theme).with_luminance (1 / 10)) ∧
    ((timesClickedOf t.enabled t.value n).toList.getLast?.getD t.value = true →
      (Toggle.update t st ctx n none theme).1.area_color = t.style.colorOf theme) := by
  obtain ⟨value, maybe_label, style, enabled⟩ := t
  cases maybe_label <;>
    refine ⟨fun h => ?_, fun h => ?_⟩ <;>
      simp_all [Toggle.update, resolveAreaColor, mouseModulate, toggleBaseColor]

/-- Witness for C5 (amended) at a concrete input: one click on `value =
true` while enabled makes the prospective final value `false` and yields
the theme's shape colour darkened to luminance `1/10`; with no clicks the
prospective value stays `true` and the colour is the undarkened shape
colour. -/
theorem area_color_darkening_witness :
    (Toggle.update (Toggle.new true) ⟨IndexSlot.new, IndexSlot.new⟩ ⟨0⟩ 1 none
        exampleTheme).1.area_color = exampleTheme.shape_color.with_luminance (1 / 10) ∧
    (Toggle.update (Toggle.new true) ⟨IndexSlot.new, IndexSlot.new⟩ ⟨0⟩ 0 none
        exampleTheme).1.area_color = exampleTheme.shape_color := by
  exact ⟨(area_color_darkening (Toggle.new true) ⟨IndexSlot.new, IndexSlot.new⟩ ⟨0⟩ 1
      exampleTheme).1 (by decide),
    (area_color_darkening (Toggle.new true) ⟨IndexSlot.new, IndexSlot.new⟩ ⟨0⟩ 0
      exampleTheme).2 (by decide)⟩

/-- C6: pointer modulation of the (possibly darkened) base colour: with the
left button down the final area colour is the clicked variant (its variant
tag is the clicked one, so the highlighted variant is never produced while
pressed); with a pointer over the widget but the left button up it is the
highlighted variant; with no pointer over the widget the base colour is
returned unmodified — and the clicked and highlighted variant tags are
distinct. -/
theorem area_color_mouse_modulation (t : Toggle) (st : State) (ctx : Ctx) (n : Nat) (theme : Theme) :
    ((Toggle.update t st ctx n (some ⟨true⟩) theme).1.area_color =
        (toggleBaseColor (t.style.colorOf theme) t.value
          (timesClickedOf t.enabled t.value n)).clicked ∧
      (Toggle.update t st ctx n (some ⟨true⟩) theme).1.area_color.variant =
        ColorVariant.clickedVariant) ∧
    (Toggle.update t st ctx n (some ⟨false⟩) theme).1.area_color =
      (toggleBaseColor (t.style.colorOf theme) t.value
        (timesClickedOf t.enabled t.value n)).highlighted ∧
    (Toggle.update t st ctx n none theme).1.area_color =
      toggleBaseColor (t.style.colorOf theme) t.value (timesClickedOf t.enabled t.value n) ∧
    ColorVariant.clickedVariant ≠ ColorVariant.highlightedVariant := by
  obtain ⟨value, maybe_label, style, enabled⟩ := t
  cases maybe_label <;>
    exact ⟨⟨rfl, rfl⟩, rfl, rfl, by decide⟩

/-- C7: the event stream `Toggle::update` hands back is the one built from
the inputs, unconsumed by the colour inspection of its disposable copy: its
`state` is the descriptor's `value`, and when enabled with a click count
that fits in `u16` its `count` is the full number of qualifying clicks. -/
theorem update_returns_unconsumed_stream (t : Toggle) (st : State) (ctx : Ctx) (n : Nat)
    (mouse : Option Mouse) (theme : Theme) :
    (Toggle.update t st ctx n mouse theme).1.event = timesClickedOf t.enabled t.value n ∧
    (Toggle.update t st ctx n mouse theme).1.event.state = t.value ∧
    (t.enabled = true → n < 65536 →
      (Toggle.update t st ctx n mouse theme).1.event.count = n) := by
  obtain ⟨value, maybe_label, style, enabled⟩ := t
  cases maybe_label <;>
    refine ⟨rfl, rfl, fun he hn => ?_⟩ <;>
      · show (if enabled = true then n % 65536 else 0) = n
        have he2 : enabled = true := he
        rw [he2, if_pos rfl]
        omega

/-- C8: an Index Slot's first `get` allocates a fresh identity from the
context and stores it, and every subsequent `get` returns that stored
identity with the slot and context unchanged (no further allocation): in
particular three successive resolutions of a fresh slot return the same
identity and perform exactly one allocation. -/
theorem indexSlot_stable_identity :
    (∀ c : Ctx,
      IndexSlot.new.get c =
        (c.next_id, { maybe_idx := some c.next_id }, { next_id := c.next_id + 1 })) ∧
    (∀ (i : Nat) (c : Ctx),
      IndexSlot.get { maybe_idx := some i } c = (i, { maybe_idx := some i }, c)) ∧
    (∀ c : Ctx,
      (threeGets c).1.1 = c.next_id ∧
      (threeGets c).2.1.1 = c.next_id ∧
      (threeGets c).2.2.1 = c.next_id ∧
      (threeGets c).2.2.2.2 = { next_id := c.next_id + 1 }) := by
  exact ⟨fun c => rfl, fun i c => rfl, fun c => ⟨rfl, rfl, rfl, rfl⟩⟩

/-- C9: style resolution is a deterministic, side-effect-free function of
the overrides and the theme: for each of the five fields, the resolved
value is the override when it is set and the theme default when it is
unset, and two resolutions from equal overrides and equal themes agree on
all five fields. -/
theorem style_resolution_pure (s : Style) (theme : Theme) :
    ((∀ c, s.color = some c → s.colorOf theme = c) ∧
      (s.color = none → s.colorOf theme = theme.shape_color)) ∧
    ((∀ b, s.border = some b → s.borderOf theme = b) ∧
      (s.border = none → s.borderOf theme = theme.border_width)) ∧
    ((∀ c, s.border_color = some c → s.border_colorOf theme = c) ∧
      (s.border_color = none → s.border_colorOf theme = theme.border_color)) ∧
    ((∀ c, s.label_color = some c → s.label_colorOf theme = c) ∧
      (s.label_color = none → s.label_colorOf theme = theme.label_color)) ∧
    ((∀ f, s.label_font_size = some f → s.label_font_sizeOf theme = f) ∧
      (s.label_font_size = none → s.label_font_sizeOf theme = theme.font_size_medium)) ∧
    (∀ (s2 : Style) (t2 : Theme), s2 = s → t2 = theme →
      (s2.colorOf t2, s2.borderOf t2, s2.border_colorOf t2, s2.label_colorOf t2,
          s2.label_font_sizeOf t2) =
        (s.colorOf theme, s.borderOf theme, s.border_colorOf theme, s.label_colorOf theme,
          s.label_font_sizeOf theme)) := by
  refine ⟨⟨fun c h => ?_, fun h => ?_⟩, ⟨fun b h => ?_, fun h => ?_⟩, ⟨fun c h => ?_, fun h => ?_⟩,
    ⟨fun c h => ?_, fun h => ?_⟩, ⟨fun f h => ?_, fun h => ?_⟩, fun s2 t2 hs ht => ?_⟩ <;>
    simp [Style.colorOf, Style.borderOf, Style.border_colorOf, Style.label_colorOf,
      Style.label_font_sizeOf, *]

/-- C10: `Toggle::new(v)` builds a descriptor with `value = v`, `enabled =
true` (so a fresh Toggle consults input without any call to `enabled`), no
label, and every style override unset, so each of the five style fields
resolves to its theme default. -/
theorem toggle_new_defaults (v : Bool) :
    (Toggle.new v).value = v ∧
    (Toggle.new v).enabled = true ∧
    (Toggle.new v).maybe_label = none ∧
    (Toggle.new v).style = Style.new ∧
    (∀ theme : Theme,
      (Toggle.new v).style.colorOf theme = theme.shape_color ∧
      (Toggle.new v).style.borderOf theme = theme.border_width ∧
      (Toggle.new v).style.border_colorOf theme = theme.border_color ∧
      (Toggle.new v).style.label_colorOf theme = theme.label_color ∧
      (Toggle.new v).style.label_font_sizeOf theme = theme.font_size_medium) ∧
    (∀ n : Nat, (timesClickedOf (Toggle.new v).enabled (Toggle.new v).value n).count = n % 65536) := by
  exact ⟨rfl, rfl, rfl, rfl, fun theme => ⟨rfl, rfl, rfl, rfl, rfl⟩, fun n => rfl⟩
